import Mathlib

/-!
Verification development for the authentication and background-job core of the
`alx-files_manager` repository: the Redis-backed session layer
(`controllers/AuthController.js`, `utils/redis.js`), the two authentication
paths (`utils/auth.js` as `getUserFromAuthorization` / `getUserFromXToken`,
wrapped by the middlewares `basicAuthenticate` / `xTokenAuthenticate`),
user registration (`UsersController.postNew`), and the worker-side job
handlers of `worker.js` together with `utils/mailer.js`.

Each JavaScript function is embedded as an executable Lean function over
explicit state (the Redis store, the users collection, the job payloads).
External collaborators (the SHA1 hash, the raster resizer, the Gmail send
outcome) are passed in as function or enumeration parameters; platform
builtins whose behavior the code relies on (`Buffer.from(_, 'base64')`,
`String.prototype.split`, `mongodb`'s `ObjectId` constructor) are modelled
concretely below, each with a note on what part of the builtin it captures.
-/

namespace FilesManager

/-! ## JavaScript and platform primitives -/

/-- JS truthiness test on an optional string, as used in guards such as
`if (!email)`: `undefined`/`null` and the empty string are falsy. -/
def jsFalsyOpt : Option String → Bool
  | none => true
  | some s => s.isEmpty

/-- Helper for `jsSplitSpace`: walk the characters, cutting at each space. -/
def jsSplitSpaceAux : List Char → List Char → List String
  | [], acc => [String.mk acc.reverse]
  | c :: rest, acc =>
    if c = ' ' then String.mk acc.reverse :: jsSplitSpaceAux rest []
    else jsSplitSpaceAux rest (c :: acc)

/-- Models `s.split(' ')` from JavaScript: the fragments between single
spaces, keeping empty fragments (so `'a  b'` gives `['a', '', 'b']` and
`''` gives `['']`), exactly as `String.prototype.split` does. -/
def jsSplitSpace (s : String) : List String :=
  jsSplitSpaceAux s.toList []

/-- Models the pair `token.substring(0, token.indexOf(':'))` /
`token.substring(token.indexOf(':') + 1)` from `getUserFromAuthorization`.
When the string has no colon, `indexOf` is `-1`, so `substring(0, -1)`
clamps to the empty string and `substring(0)` is the whole string. -/
def splitAtFirstColon (s : String) : String × String :=
  match s.toList.findIdx? (· = ':') with
  | none => ("", s)
  | some i => (String.mk (s.toList.take i), String.mk (s.toList.drop (i + 1)))

/-- One lowercase hex digit for a value below 16. -/
def hexDigitChar (n : Nat) : Char :=
  if n < 10 then Char.ofNat (48 + n) else Char.ofNat (87 + n)

/-- Two lowercase hex digits for one byte. -/
def byteHex (n : Nat) : String :=
  String.mk [hexDigitChar ((n % 256) / 16), hexDigitChar (n % 16)]

/-- Is this character a hexadecimal digit (either case)? -/
def isHexDigitChar (c : Char) : Bool :=
  (('0' ≤ c) && (c ≤ '9')) || (('a' ≤ c) && (c ≤ 'f')) || (('A' ≤ c) && (c ≤ 'F'))

/-- Lowercase the hex letters of a string (used to normalise ObjectId hex). -/
def hexLower (s : String) : String :=
  String.mk (s.toList.map (fun c =>
    if ('A' ≤ c) && (c ≤ 'Z') then Char.ofNat (c.toNat + 32) else c))

/-- The base64 alphabet position of a character, or `none` for characters
that Node's forgiving decoder skips (it also accepts the url-safe `-`/`_`). -/
def b64Index (c : Char) : Option Nat :=
  if ('A' ≤ c) && (c ≤ 'Z') then some (c.toNat - 65)
  else if ('a' ≤ c) && (c ≤ 'z') then some (c.toNat - 97 + 26)
  else if ('0' ≤ c) && (c ≤ '9') then some (c.toNat - 48 + 52)
  else if c = '+' then some 62
  else if c = '/' then some 63
  else if c = '-' then some 62
  else if c = '_' then some 63
  else none

/-- Reassemble bytes from base64 sextets: each full group of four sextets
gives three bytes; two or three leftover sextets give one or two bytes; a
single leftover sextet is dropped, as Node's decoder does. -/
def b64Bytes : List Nat → List Nat
  | a :: b :: c :: d :: rest =>
    (a * 4 + b / 16) :: ((b % 16) * 16 + c / 4) :: ((c % 4) * 64 + d) :: b64Bytes rest
  | [a, b] => [a * 4 + b / 16]
  | [a, b, c] => [a * 4 + b / 16, (b % 16) * 16 + c / 4]
  | _ => []

/-- Models `Buffer.from(s, 'base64').toString()` from Node: a total,
never-throwing decode that skips characters outside the base64 alphabet
(including `=` padding) and then reads the bytes back as text. Byte-to-text
conversion is modelled per byte (latin1 view), which agrees with Node's
UTF-8 `toString` on all ASCII outputs — the only ones these claims need. -/
def nodeB64DecodeToString (s : String) : String :=
  String.mk ((b64Bytes (s.toList.filterMap b64Index)).map Char.ofNat)

/-- Models `new mongoDBCore.BSON.ObjectId(s)` from the `mongodb` driver,
returning the id's canonical lowercase-hex form: a 12-character string is
taken as raw bytes, a 24-character hex string is accepted (case folded),
and every other string makes the constructor throw, modelled as `none`. -/
def mongoObjectId (s : String) : Option String :=
  if s.length = 12 then
    some (String.join (s.toList.map (fun c => byteHex (c.toNat % 256))))
  else if s.length = 24 && s.toList.all isHexDigitChar then
    some (hexLower s)
  else none

/-! ## The Redis cache (`utils/redis.js`)

The embedded `RedisClient` is the variant whose constructor binds the raw
promisified client commands (`this.get/set/del = promisify(this.client.…)`),
so a call `redisClient.set(key, value, 'EX', seconds)` reaches Redis as
`SET key value EX seconds` and `get`/`del` are plain `GET`/`DEL`. The store
itself is a key/value map with absolute expiry timestamps; a key whose
expiry has passed behaves as absent. -/

/-- A cached value together with its absolute expiry instant. -/
structure CacheEntry where
  value : String
  expiresAt : Nat
deriving Repr, DecidableEq

/-- The Redis keyspace: association list from keys to entries. -/
abbrev RedisStore := List (String × CacheEntry)

/-- First entry stored under a key, if any. -/
def storeLookup : RedisStore → String → Option CacheEntry
  | [], _ => none
  | (k, e) :: rest, key => if k == key then some e else storeLookup rest key

/-- `DEL key`: remove every binding of the key (idempotent). -/
def redisDel : RedisStore → String → RedisStore
  | [], _ => []
  | (k, e) :: rest, key =>
    if k == key then redisDel rest key else (k, e) :: redisDel rest key

/-- `SET key value EX ttl` at time `now`: overwrite any previous binding,
with absolute expiry `now + ttl`. -/
def redisSetEx (st : RedisStore) (now : Nat) (key value : String) (ttl : Nat) : RedisStore :=
  (key, ⟨value, now + ttl⟩) :: redisDel st key

/-- The raw promisified `client.set` call of the embedded `RedisClient`:
with the `'EX'` flag it is `SET key value EX dur`; any other flag string is
a Redis syntax error, surfacing as a rejected promise. -/
def redisClientSet (st : RedisStore) (now : Nat) (key value flag : String) (dur : Nat) :
    Except String RedisStore :=
  if flag == "EX" then .ok (redisSetEx st now key value dur)
  else .error "ERR syntax error"

/-- `GET key` at time `now`: the stored value, or `none` when the key is
missing or its TTL has elapsed (expired keys behave as absent). -/
def redisGet (st : RedisStore) (now : Nat) (key : String) : Option String :=
  match storeLookup st key with
  | none => none
  | some e => if now < e.expiresAt then some e.value else none

/-! ## Users collection (`utils/db.js`) -/

/-- A stored user document: `_id` is the ObjectId in canonical
lowercase-hex string form (as `_id.toString()` renders it), `password`
holds the SHA1 hex digest of the plaintext. -/
structure User where
  oid : String
  email : String
  password : String
deriving Repr, DecidableEq

/-- The `users` collection. -/
abbrev UsersDb := List User

/-- `usersCollection().findOne({ email })`. -/
def dbFindOneByEmail (db : UsersDb) (email : String) : Option User :=
  db.find? (fun u => u.email == email)

/-- `usersCollection().findOne({ _id: oid })` for a canonical hex id. -/
def dbFindOneById (db : UsersDb) (oid : String) : Option User :=
  db.find? (fun u => u.oid == oid)

/-! ## HTTP responses and middleware outcomes -/

/-- The response bodies this core produces, modelled structurally:
`errorJson m` is the envelope with an `error` field holding `m`,
`tokenJson t` is `getConnect`'s `{ token }`, `userJson` is `postNew`'s
`{ email, id }`, and `empty` is `res.send()` with no content. -/
inductive RespBody
  | empty
  | errorJson (msg : String)
  | tokenJson (token : String)
  | userJson (email : String) (id : String)
deriving Repr, DecidableEq

/-- An HTTP response: status code plus body. -/
structure HttpResponse where
  status : Nat
  body : RespBody
deriving Repr, DecidableEq

/-- The `res.status(401).json({ error: 'Unauthorized' })` response both
middlewares send on any authentication failure. -/
def unauthorizedResponse : HttpResponse :=
  ⟨401, .errorJson "Unauthorized"⟩

/-- What an Express middleware invocation can do: terminate the request
with a response, attach the user and call `next()`, or let an exception
escape (an `await` rejecting outside any `try`, which Express 4 does not
turn into a response). -/
inductive MwResult
  | respond (r : HttpResponse)
  | next (u : User)
  | threw (msg : String)
deriving Repr, DecidableEq

/-! ## Basic-scheme resolution (`utils/db.js`: `getUserFromAuthorization`,
`middlewares/auth.js`: `basicAuthenticate`)

The SHA1 hash is an external collaborator (`sha1` npm package) and is
passed in as a function parameter. -/

/-- Embeds `getUserFromAuthorization(req)`: read the `Authorization`
header (`|| null` makes an empty header count as missing), require exactly
two space-separated parts with scheme word `Basic` (the source's guard
`authorizationParts.length !== 2 || authorizationParts[0] !== 'Basic'` is
rendered as the match on a two-element split plus the scheme test),
base64-decode the payload, split it at its first colon into email and
password, look the email up, and compare SHA1 digests. Every failure
returns `null`. -/
def getUserFromAuthorization (sha1 : String → String) (db : UsersDb)
    (authorization : Option String) : Option User :=
  if jsFalsyOpt authorization then none
  else
    match jsSplitSpace (authorization.getD "") with
    | [scheme, payload] =>
      if scheme != "Basic" then none
      else
        let token := nodeB64DecodeToString payload
        let (email, password) := splitAtFirstColon token
        match dbFindOneByEmail db email with
        | none => none
        | some user => if sha1 password != user.password then none else some user
    | _ => none

/-- Embeds the `basicAuthenticate` middleware: 401 with the uniform error
body when `getUserFromAuthorization` returns `null`, otherwise attach the
user and continue. -/
def basicAuthenticate (sha1 : String → String) (db : UsersDb)
    (authorization : Option String) : MwResult :=
  match getUserFromAuthorization sha1 db authorization with
  | none => .respond unauthorizedResponse
  | some user => .next user

/-! ## Bearer-token resolution (`utils/db.js`: `getUserFromXToken`,
`middlewares/auth.js`: `xTokenAuthenticate`) -/

/-- Outcome of `getUserFromXToken`: a resolved optional user, or a thrown
exception from the `ObjectId` constructor (there is no `try` around it). -/
inductive XTokenLookup
  | ok (u : Option User)
  | oidError (msg : String)
deriving Repr, DecidableEq

/-- The message of the `mongodb` ObjectId constructor's error. -/
def objectIdErrorMsg : String :=
  "Argument passed in must be a single String of 12 bytes or a string of 24 hex characters"

/-- Embeds `getUserFromXToken(req)`: read `X-Token` (falsy means `null`),
fetch `auth_<token>` from Redis (a falsy cached value also means `null`),
build an `ObjectId` from the cached value — which throws on a malformed
value — and look the user up by id. -/
def getUserFromXToken (db : UsersDb) (st : RedisStore) (now : Nat)
    (xtoken : Option String) : XTokenLookup :=
  if jsFalsyOpt xtoken then .ok none
  else
    match redisGet st now ("auth_" ++ xtoken.getD "") with
    | none => .ok none
    | some userId =>
      if userId.isEmpty then .ok none
      else
        match mongoObjectId userId with
        | none => .oidError objectIdErrorMsg
        | some oid => .ok (dbFindOneById db oid)

/-- Embeds the `xTokenAuthenticate` middleware: 401 with the uniform error
body when no user resolves, `next()` with the user otherwise; an exception
out of `getUserFromXToken` escapes the middleware (no `try`/`catch`). -/
def xTokenAuthenticate (db : UsersDb) (st : RedisStore) (now : Nat)
    (xtoken : Option String) : MwResult :=
  match getUserFromXToken db st now xtoken with
  | .oidError m => .threw m
  | .ok none => .respond unauthorizedResponse
  | .ok (some user) => .next user

/-! ## Session endpoints (`controllers/AuthController.js`)

`uuidv4()` is a random-token collaborator: the freshly generated token is
passed in as a parameter, and distinctness of successive tokens is an
assumption on those parameters. -/

/-- Embeds `AuthController.getConnect`: store the freshly generated token
under `auth_<token>` with the user's id via
`redisClient.set(key, id, 'EX', 24 * 60 * 60)` and answer `200 { token }`;
if the awaited call rejects, the `catch` answers 500. -/
def getConnect (st : RedisStore) (now : Nat) (token : String) (user : User) :
    RedisStore × HttpResponse :=
  match redisClientSet st now ("auth_" ++ token) user.oid "EX" (24 * 60 * 60) with
  | .ok st' => (st', ⟨200, .tokenJson token⟩)
  | .error _ => (st, ⟨500, .errorJson "Internal server error"⟩)

/-- Embeds `AuthController.getDisconnect`: 401 without a token, otherwise
delete `auth_<token>` and answer `204` with no content. -/
def getDisconnect (st : RedisStore) (xtoken : Option String) :
    RedisStore × HttpResponse :=
  if jsFalsyOpt xtoken then (st, unauthorizedResponse)
  else (redisDel st ("auth_" ++ xtoken.getD ""), ⟨204, .empty⟩)

/-! ## Registration (`controllers/UsersController.js`: `postNew`) -/

/-- The request body as `postNew` reads it: `req.body` may be absent, and
each field may be absent within it. -/
structure NewUserBody where
  email : Option String
  password : Option String
deriving Repr, DecidableEq

/-- Result of a `postNew` call: the response, the users collection after
the call, and the `userId` payloads enqueued on the `email sending` queue. -/
structure PostNewResult where
  response : HttpResponse
  db : UsersDb
  enqueued : List String
deriving Repr, DecidableEq

/-- Embeds `UsersController.postNew`: reject a falsy email then a falsy
password with 400, reject an already-stored email with 400, otherwise
insert `{ email, password: sha1(password) }` (the id `newId` is assigned
by storage), enqueue `{ userId }` on the email queue, and answer
`201 { email, id }`. -/
def postNew (sha1 : String → String) (db : UsersDb) (body : Option NewUserBody)
    (newId : String) : PostNewResult :=
  let email := body.bind (·.email)
  let password := body.bind (·.password)
  if jsFalsyOpt email then ⟨⟨400, .errorJson "Missing email"⟩, db, []⟩
  else if jsFalsyOpt password then ⟨⟨400, .errorJson "Missing password"⟩, db, []⟩
  else
    let e := email.getD ""
    match dbFindOneByEmail db e with
    | some _ => ⟨⟨400, .errorJson "Already exist"⟩, db, []⟩
    | none =>
      ⟨⟨201, .userJson e newId⟩, db ++ [⟨newId, e, sha1 (password.getD "")⟩], [newId]⟩

/-! ## Worker (`worker.js`) and mailer (`utils/mailer.js`)

The thumbnail resizer (`image-thumbnail`) is an external collaborator,
passed in as a fallible function; the filesystem write is tracked as an
emitted action. Note that the `DBClient` of `utils/db.js` exposes only
`usersCollection()` — it has no `filesCollection()` method (the doc
comment on `usersCollection` even announces the `files` collection), so
the thumbnail processor's call `dbClient.filesCollection()` throws a
`TypeError` inside its `try` block. -/

/-- How a Bull job handler reports back through `done`: `done()` on
success, `done(error)` on failure. -/
inductive JobResult
  | done
  | failed (msg : String)
deriving Repr, DecidableEq

/-- Observable collaborator actions of the thumbnail processor: a
`findOne` on the files collection, or a filesystem write of a resized
copy. -/
inductive WorkerAction
  | storeLookup (fileId userId : String)
  | fsWrite (path : String)
deriving Repr, DecidableEq

/-- The payload of a job on the `thumbnail generation` queue. -/
structure FileJobData where
  fileId : Option String
  userId : Option String
deriving Repr, DecidableEq

/-- The `TypeError` raised because `DBClient` has no `filesCollection`
method. -/
def filesCollectionTypeError : String :=
  "TypeError: dbClient.filesCollection is not a function"

/-- Embeds `generateThumbnail(filePath, size)`: ask the resizer for a
buffer and write it to `<filePath>_<size>`; a resizer failure is rethrown
as the handler's own error message. Unreachable from the processor below
because the file fetch throws first, but embedded from the source as
written. -/
def generateThumbnail (resize : String → Nat → Option (List Nat))
    (filePath : String) (size : Nat) : Except String (String × List Nat) :=
  match resize filePath size with
  | some buffer => .ok (filePath ++ "_" ++ toString size, buffer)
  | none => .error ("Failed to generate thumbnail for file: " ++ filePath)

/-- Embeds the `fileQueue.process` handler: report `Missing fileId` /
`Missing userId` before touching any collaborator; once both are present,
the very first statement of the `try` block calls the nonexistent
`dbClient.filesCollection`, so the handler fails with a `TypeError` and
no files-collection query or filesystem write ever happens. -/
def fileQueueProcess (jobData : FileJobData) : JobResult × List WorkerAction :=
  if jsFalsyOpt jobData.fileId then (.failed "Missing fileId", [])
  else if jsFalsyOpt jobData.userId then (.failed "Missing userId", [])
  else (.failed filesCollectionTypeError, [])

/-- The MIME message `Mailer.buildMessage` hands to `sendMail`, reduced to
the fields that determine its `raw` payload. -/
structure MailMessage where
  sender : String
  dest : String
  subject : String
  content : String
deriving Repr, DecidableEq

/-- Embeds `Mailer.buildMessage(dest, subject, message)`: throw
`Invalid sender` when the `GMAIL_SENDER` environment variable is unset or
empty, throw `Invalid MIME message` when `mime-message` rejects the
message data (the validator is an external collaborator, passed in as the
flag `validMime`), otherwise return the built message. -/
def buildMessage (gmailSender : Option String) (validMime : Bool)
    (dest subject message : String) : Except String MailMessage :=
  if jsFalsyOpt gmailSender then .error "Invalid sender"
  else if validMime then .ok ⟨gmailSender.getD "", dest, subject, message⟩
  else .error "Invalid MIME message"

/-- The possible outcomes of the fire-and-forget send pipeline
(`readFileAsync('credentials.json') → authorize → gmail.users.messages.send`). -/
inductive SendOutcome
  | delivered
  | credentialsUnreadable
  | authFailed
  | apiError (msg : String)
deriving Repr, DecidableEq

/-- Embeds `Mailer.sendMail(mail)`: every failure along the way — an
unreadable `credentials.json`, a failed authorization, a Gmail API error —
is consumed by a `.catch` or callback that only logs; the function's only
observable output is its log lines, and it never throws to its caller. -/
def sendMail (outcome : SendOutcome) (_mail : MailMessage) : List String :=
  match outcome with
  | .delivered => ["Message sent successfully"]
  | .credentialsUnreadable => ["Error loading client secret file"]
  | .authFailed => ["Error retrieving access token"]
  | .apiError m => ["The API returned an error: " ++ m]

/-- The payload of a job on the `email sending` queue. -/
structure UserJobData where
  userId : Option String
deriving Repr, DecidableEq

/-- What one run of the email-job handler did: how it reported to the
queue, which message (if any) it handed to `sendMail`, and whether the
send was dispatched. -/
structure EmailJobTrace where
  result : JobResult
  builtMail : Option MailMessage
  dispatched : Bool
deriving Repr, DecidableEq

/-- The fixed subject of the welcome email in `worker.js`. -/
def mailSubject : String := "Welcome to ALX-Files_Manager by B3zaleel"

/-- The fixed HTML body of the welcome email in `worker.js` (the
`.join('')` of its fragment array). -/
def mailContent : String :=
  "<div><h3>Hello \x7b\x7buser.name\x7d\x7d,</h3>Welcome to <a href=\"https://github.com/B3zaleel/alx-files_manager\">ALX-Files_Manager</a>, a simple file management API built with Node.js by <a href=\"https://github.com/B3zaleel\">Bezaleel Olakunori</a>. We hope it meets your needs.</div>"

/-- Embeds the `userQueue.process` handler: report `Missing userId` for a
falsy payload field; build an `ObjectId` from the id (a malformed id makes
the constructor throw inside the `try`, failing the job with the BSON
error); report `User not found` when the lookup misses; otherwise build
the welcome message (whose construction may throw, also caught by the
`try`), dispatch it through the fire-and-forget `sendMail`, and
immediately report success — the send outcome is never awaited. -/
def userQueueProcess (db : UsersDb) (gmailSender : Option String)
    (validMime : Bool) (outcome : SendOutcome) (jobData : UserJobData) :
    EmailJobTrace :=
  if jsFalsyOpt jobData.userId then ⟨.failed "Missing userId", none, false⟩
  else
    match mongoObjectId (jobData.userId.getD "") with
    | none => ⟨.failed objectIdErrorMsg, none, false⟩
    | some oid =>
      match dbFindOneById db oid with
      | none => ⟨.failed "User not found", none, false⟩
      | some user =>
        match buildMessage gmailSender validMime user.email mailSubject mailContent with
        | .error e => ⟨.failed e, none, false⟩
        | .ok mail =>
          let _logs := sendMail outcome mail
          ⟨.done, some mail, true⟩

/-! ## Store lemmas -/

theorem string_append_right_inj (p : String) {a b : String} (h : p ++ a = p ++ b) :
    a = b := by
  cases p with | mk lp =>
  cases a with | mk la =>
  cases b with | mk lb =>
  injection h with h'
  exact congrArg String.mk (List.append_cancel_left h')

theorem isEmpty_false_of_ne {s : String} (h : s ≠ "") : s.isEmpty = false := by
  cases hs : s.isEmpty
  · rfl
  · exact absurd ((String.isEmpty_iff s).mp hs) h

theorem storeLookup_del_self (st : RedisStore) (k : String) :
    storeLookup (redisDel st k) k = none := by
  induction st with
  | nil => rfl
  | cons p rest ih =>
    obtain ⟨k', e⟩ := p
    by_cases h : k' = k
    · simpa [redisDel, h] using ih
    · simp [redisDel, storeLookup, h, ih]

theorem storeLookup_del_other {k k' : String} (h : k' ≠ k) (st : RedisStore) :
    storeLookup (redisDel st k) k' = storeLookup st k' := by
  induction st with
  | nil => rfl
  | cons p rest ih =>
    obtain ⟨k'', e⟩ := p
    by_cases h2 : k'' = k
    · subst h2
      simp [redisDel, storeLookup, Ne.symm h, ih]
    · simp [redisDel, storeLookup, h2, ih]

theorem storeLookup_setEx_self (st : RedisStore) (now : Nat) (k v : String) (ttl : Nat) :
    storeLookup (redisSetEx st now k v ttl) k = some ⟨v, now + ttl⟩ := by
  simp [redisSetEx, storeLookup]

theorem storeLookup_setEx_other {k k' : String} (h : k' ≠ k) (st : RedisStore)
    (now : Nat) (v : String) (ttl : Nat) :
    storeLookup (redisSetEx st now k v ttl) k' = storeLookup st k' := by
  simp [redisSetEx, storeLookup, Ne.symm h, storeLookup_del_other h]

theorem redisGet_setEx_self (st : RedisStore) (now : Nat) (k v : String) (ttl : Nat)
    (h : 0 < ttl) : redisGet (redisSetEx st now k v ttl) now k = some v := by
  simp [redisGet, storeLookup_setEx_self]
  omega

theorem redisGet_setEx_other {k k' : String} (h : k' ≠ k) (st : RedisStore)
    (now t : Nat) (v : String) (ttl : Nat) :
    redisGet (redisSetEx st now k v ttl) t k' = redisGet st t k' := by
  simp [redisGet, storeLookup_setEx_other h]

theorem redisGet_del_self (st : RedisStore) (t : Nat) (k : String) :
    redisGet (redisDel st k) t k = none := by
  simp [redisGet, storeLookup_del_self]

theorem redisGet_del_other {k k' : String} (h : k' ≠ k) (st : RedisStore) (t : Nat) :
    redisGet (redisDel st k) t k' = redisGet st t k' := by
  simp [redisGet, storeLookup_del_other h]

/-! ## Claims -/

/-- C1: issuing a session token with `getConnect` and immediately resolving
it through the `X-Token` path (`getUserFromXToken`) returns the same user;
after `getDisconnect` deletes the cache entry, resolving returns `none`
(hence the middleware answers 401); and two successive issues for the same
user — the freshly generated uuid tokens being distinct — are each
independently resolvable, and revoking the first leaves the second
resolvable. -/
theorem sessionIssueResolveRevoke
    (db : UsersDb) (st : RedisStore) (now : Nat) (user : User) (t1 t2 : String)
    (hid : mongoObjectId user.oid = some user.oid)
    (hdb : dbFindOneById db user.oid = some user)
    (ht1 : t1 ≠ "") (ht2 : t2 ≠ "") (hne : t1 ≠ t2) :
    (getConnect st now t1 user).2 = ⟨200, .tokenJson t1⟩ ∧
    getUserFromXToken db (getConnect st now t1 user).1 now (some t1) = .ok (some user) ∧
    getUserFromXToken db (getConnect (getConnect st now t1 user).1 now t2 user).1 now
      (some t1) = .ok (some user) ∧
    getUserFromXToken db (getConnect (getConnect st now t1 user).1 now t2 user).1 now
      (some t2) = .ok (some user) ∧
    (getDisconnect (getConnect (getConnect st now t1 user).1 now t2 user).1 (some t1)).2
      = ⟨204, .empty⟩ ∧
    getUserFromXToken db
      (getDisconnect (getConnect (getConnect st now t1 user).1 now t2 user).1 (some t1)).1
      now (some t1) = .ok none ∧
    xTokenAuthenticate db
      (getDisconnect (getConnect (getConnect st now t1 user).1 now t2 user).1 (some t1)).1
      now (some t1) = .respond unauthorizedResponse ∧
    getUserFromXToken db
      (getDisconnect (getConnect (getConnect st now t1 user).1 now t2 user).1 (some t1)).1
      now (some t2) = .ok (some user) := by
  have hoid_ne : user.oid ≠ "" := by
    intro he
    rw [he, show mongoObjectId "" = none from by decide] at hid
    exact Option.noConfusion hid
  have key12 : ("auth_" ++ t1) ≠ ("auth_" ++ t2) :=
    fun h => hne (string_append_right_inj _ h)
  have key21 : ("auth_" ++ t2) ≠ ("auth_" ++ t1) := fun h => key12 h.symm
  have e1 : (getConnect st now t1 user).1
      = redisSetEx st now ("auth_" ++ t1) user.oid (24 * 60 * 60) := rfl
  have e2 : (getConnect (getConnect st now t1 user).1 now t2 user).1
      = redisSetEx (getConnect st now t1 user).1 now ("auth_" ++ t2) user.oid
        (24 * 60 * 60) := rfl
  have e3 : getDisconnect (getConnect (getConnect st now t1 user).1 now t2 user).1
      (some t1)
      = (redisDel (getConnect (getConnect st now t1 user).1 now t2 user).1
          ("auth_" ++ t1), ⟨204, .empty⟩) := by
    simp [getDisconnect, jsFalsyOpt, isEmpty_false_of_ne ht1]
  have resolveOk : ∀ (s : RedisStore) (t : String), t ≠ "" →
      redisGet s now ("auth_" ++ t) = some user.oid →
      getUserFromXToken db s now (some t) = .ok (some user) := by
    intro s t htne hget
    simp [getUserFromXToken, jsFalsyOpt, isEmpty_false_of_ne htne, hget,
      isEmpty_false_of_ne hoid_ne, hid, hdb]
  have resolveNone : ∀ (s : RedisStore) (t : String), t ≠ "" →
      redisGet s now ("auth_" ++ t) = none →
      getUserFromXToken db s now (some t) = .ok none := by
    intro s t htne hget
    simp [getUserFromXToken, jsFalsyOpt, isEmpty_false_of_ne htne, hget]
  have g1 : redisGet (getConnect st now t1 user).1 now ("auth_" ++ t1)
      = some user.oid := by
    rw [e1]; exact redisGet_setEx_self _ _ _ _ _ (by decide)
  have g2 : redisGet (getConnect (getConnect st now t1 user).1 now t2 user).1 now
      ("auth_" ++ t1) = some user.oid := by
    rw [e2, redisGet_setEx_other key12]; exact g1
  have g3 : redisGet (getConnect (getConnect st now t1 user).1 now t2 user).1 now
      ("auth_" ++ t2) = some user.oid := by
    rw [e2]; exact redisGet_setEx_self _ _ _ _ _ (by decide)
  have g4 : redisGet
      (getDisconnect (getConnect (getConnect st now t1 user).1 now t2 user).1
        (some t1)).1 now ("auth_" ++ t1) = none := by
    rw [e3]; exact redisGet_del_self _ _ _
  have g5 : redisGet
      (getDisconnect (getConnect (getConnect st now t1 user).1 now t2 user).1
        (some t1)).1 now ("auth_" ++ t2) = some user.oid := by
    rw [e3]; rw [redisGet_del_other key21]; exact g3
  refine ⟨rfl, resolveOk _ _ ht1 g1, resolveOk _ _ ht1 g2, resolveOk _ _ ht2 g3,
    by rw [e3], resolveNone _ _ ht1 g4, ?_, resolveOk _ _ ht2 g5⟩
  simp [xTokenAuthenticate, resolveNone _ _ ht1 g4]

/-- C1 witness: the round trip at a concrete user, store and token pair. -/
theorem sessionIssueResolveRevoke_witness :
    getUserFromXToken [⟨"507f191e810c19729de860ea", "alice@x.com", "h"⟩]
      (getConnect [] 0 "tokA" ⟨"507f191e810c19729de860ea", "alice@x.com", "h"⟩).1 0
      (some "tokA")
      = .ok (some ⟨"507f191e810c19729de860ea", "alice@x.com", "h"⟩) ∧
    getUserFromXToken [⟨"507f191e810c19729de860ea", "alice@x.com", "h"⟩]
      (getDisconnect
        (getConnect
          (getConnect [] 0 "tokA" ⟨"507f191e810c19729de860ea", "alice@x.com", "h"⟩).1
          0 "tokB" ⟨"507f191e810c19729de860ea", "alice@x.com", "h"⟩).1
        (some "tokA")).1 0 (some "tokA") = .ok none ∧
    getUserFromXToken [⟨"507f191e810c19729de860ea", "alice@x.com", "h"⟩]
      (getDisconnect
        (getConnect
          (getConnect [] 0 "tokA" ⟨"507f191e810c19729de860ea", "alice@x.com", "h"⟩).1
          0 "tokB" ⟨"507f191e810c19729de860ea", "alice@x.com", "h"⟩).1
        (some "tokA")).1 0 (some "tokB")
      = .ok (some ⟨"507f191e810c19729de860ea", "alice@x.com", "h"⟩) := by
  have h := sessionIssueResolveRevoke
    [⟨"507f191e810c19729de860ea", "alice@x.com", "h"⟩] [] 0
    ⟨"507f191e810c19729de860ea", "alice@x.com", "h"⟩ "tokA" "tokB"
    (by decide) (by decide) (by decide) (by decide) (by decide)
  exact ⟨h.2.1, h.2.2.2.2.2.1, h.2.2.2.2.2.2.2⟩

/-- C2: `getConnect` stores the issued token under key `auth_<token>` with
the user's id as value and an absolute expiry exactly `24 * 60 * 60 = 86400`
seconds after the set call, and answers 200 with the token. -/
theorem connectStoresTokenWithTtl (st : RedisStore) (now : Nat) (token : String)
    (user : User) :
    storeLookup (getConnect st now token user).1 ("auth_" ++ token)
      = some ⟨user.oid, now + 86400⟩ ∧
    (getConnect st now token user).2 = ⟨200, .tokenJson token⟩ := by
  exact ⟨storeLookup_setEx_self st now ("auth_" ++ token) user.oid (24 * 60 * 60), rfl⟩

/-- C3 counterexample: a colon-free base64 payload is not rejected as a
parse failure. `'eA=='` decodes to the colon-free string `'x'`, so the code
proceeds with the empty string as email and `'x'` as password; against a
store holding a user with the empty email and matching password hash (the
hash collaborator instantiated concretely), the middleware authenticates
instead of answering 401. -/
theorem basicAuthMalformedCounterexample :
    nodeB64DecodeToString "eA==" = "x" ∧
    (nodeB64DecodeToString "eA==").toList.findIdx? (· = ':') = none ∧
    basicAuthenticate (fun s => s) [⟨"507f191e810c19729de860ea", "", "x"⟩]
      (some "Basic eA==")
      = .next ⟨"507f191e810c19729de860ea", "", "x"⟩ ∧
    basicAuthenticate (fun s => s) [⟨"507f191e810c19729de860ea", "", "x"⟩]
      (some "Basic eA==") ≠ .respond unauthorizedResponse := by
  refine ⟨by decide, by decide, by decide, ?_⟩
  intro h
  rw [show basicAuthenticate (fun s => s) [⟨"507f191e810c19729de860ea", "", "x"⟩]
      (some "Basic eA==") = .next ⟨"507f191e810c19729de860ea", "", "x"⟩ from by decide]
    at h
  exact MwResult.noConfusion h

/-- C3 (amended): a missing (or empty, hence falsy) `Authorization` header,
a part count other than two, or a scheme word other than `Basic` always
yields the single 401 Unauthorized response; a colon-free decoded payload
yields it too provided no stored user has the empty string as email (the
code then proceeds with empty email and the whole payload as password);
and in every case the middleware either answers exactly that 401 response
or attaches a user and continues — no other error kind and no exception
ever reaches the caller. -/
theorem basicAuthMalformedAmended (sha1 : String → String) (db : UsersDb)
    (authorization : Option String) :
    (jsFalsyOpt authorization = true →
      basicAuthenticate sha1 db authorization = .respond unauthorizedResponse) ∧
    (∀ a, authorization = some a → a ≠ "" →
      ((jsSplitSpace a).length ≠ 2 ∨ (jsSplitSpace a).headD "" ≠ "Basic") →
      basicAuthenticate sha1 db authorization = .respond unauthorizedResponse) ∧
    (∀ a, authorization = some a → a ≠ "" →
      (nodeB64DecodeToString ((jsSplitSpace a).getD 1 "")).toList.findIdx? (· = ':')
        = none →
      dbFindOneByEmail db "" = none →
      basicAuthenticate sha1 db authorization = .respond unauthorizedResponse) ∧
    (basicAuthenticate sha1 db authorization = .respond unauthorizedResponse ∨
      ∃ u, basicAuthenticate sha1 db authorization = .next u) := by
  refine ⟨?_, ?_, ?_, ?_⟩
  · intro h
    simp [basicAuthenticate, getUserFromAuthorization, h]
  · intro a ha hne hshape
    subst ha
    cases hsp : jsSplitSpace a with
    | nil =>
      simp [basicAuthenticate, getUserFromAuthorization, jsFalsyOpt,
        isEmpty_false_of_ne hne, hsp]
    | cons p0 tl =>
      cases tl with
      | nil =>
        simp [basicAuthenticate, getUserFromAuthorization, jsFalsyOpt,
          isEmpty_false_of_ne hne, hsp]
      | cons p1 tl2 =>
        cases tl2 with
        | cons p2 tl3 =>
          simp [basicAuthenticate, getUserFromAuthorization, jsFalsyOpt,
            isEmpty_false_of_ne hne, hsp]
        | nil =>
          rcases hshape with h | h
          · rw [hsp] at h
            exact absurd rfl h
          · rw [hsp] at h
            have hp0 : p0 ≠ "Basic" := h
            simp [basicAuthenticate, getUserFromAuthorization, jsFalsyOpt,
              isEmpty_false_of_ne hne, hsp, hp0]
  · intro a ha hne hnocolon hempty
    subst ha
    cases hsp : jsSplitSpace a with
    | nil =>
      simp [basicAuthenticate, getUserFromAuthorization, jsFalsyOpt,
        isEmpty_false_of_ne hne, hsp]
    | cons p0 tl =>
      cases tl with
      | nil =>
        simp [basicAuthenticate, getUserFromAuthorization, jsFalsyOpt,
          isEmpty_false_of_ne hne, hsp]
      | cons p1 tl2 =>
        cases tl2 with
        | cons p2 tl3 =>
          simp [basicAuthenticate, getUserFromAuthorization, jsFalsyOpt,
            isEmpty_false_of_ne hne, hsp]
        | nil =>
          by_cases hp0 : p0 = "Basic"
          · subst hp0
            rw [hsp] at hnocolon
            have hno : (nodeB64DecodeToString p1).toList.findIdx? (· = ':')
                = none := hnocolon
            have hsplit : splitAtFirstColon (nodeB64DecodeToString p1)
                = ("", nodeB64DecodeToString p1) := by
              unfold splitAtFirstColon
              rw [hno]
            simp [basicAuthenticate, getUserFromAuthorization, jsFalsyOpt,
              isEmpty_false_of_ne hne, hsp, hsplit, hempty]
          · simp [basicAuthenticate, getUserFromAuthorization, jsFalsyOpt,
              isEmpty_false_of_ne hne, hsp, hp0]
  · cases hu : getUserFromAuthorization sha1 db authorization with
    | none => exact Or.inl (by simp [basicAuthenticate, hu])
    | some u => exact Or.inr ⟨u, by simp [basicAuthenticate, hu]⟩

/-- C3 witness: the amended theorem applied to a request with no
`Authorization` header. -/
theorem basicAuthMalformedAmended_witness :
    basicAuthenticate (fun s => s) [] none = .respond unauthorizedResponse :=
  (basicAuthMalformedAmended (fun s => s) [] none).1 rfl

/-- C4: any two requests that fail Basic authentication — for whichever
reason `getUserFromAuthorization` returned `null` — receive literally the
same response, status 401 with the one `Unauthorized` error body, so the
failure causes are indistinguishable to the caller. -/
theorem basicAuthFailuresIndistinguishable (sha1 : String → String)
    (db1 db2 : UsersDb) (a1 a2 : Option String)
    (h1 : getUserFromAuthorization sha1 db1 a1 = none)
    (h2 : getUserFromAuthorization sha1 db2 a2 = none) :
    basicAuthenticate sha1 db1 a1 = basicAuthenticate sha1 db2 a2 ∧
    basicAuthenticate sha1 db1 a1 = .respond unauthorizedResponse ∧
    unauthorizedResponse = ⟨401, .errorJson "Unauthorized"⟩ := by
  refine ⟨?_, ?_, rfl⟩ <;> simp [basicAuthenticate, h1, h2]

/-- C4 witness: a no-such-email failure and a wrong-password failure (the
hash collaborator instantiated concretely) produce the identical 401. -/
theorem basicAuthFailuresIndistinguishable_witness :
    getUserFromAuthorization (fun s => s ++ "#") []
      (some "Basic YWxpY2VAeC5jb206d3Jvbmc=") = none ∧
    getUserFromAuthorization (fun s => s ++ "#")
      [⟨"507f191e810c19729de860ea", "alice@x.com", "secret#"⟩]
      (some "Basic YWxpY2VAeC5jb206d3Jvbmc=") = none ∧
    basicAuthenticate (fun s => s ++ "#") [] (some "Basic YWxpY2VAeC5jb206d3Jvbmc=")
      = basicAuthenticate (fun s => s ++ "#")
        [⟨"507f191e810c19729de860ea", "alice@x.com", "secret#"⟩]
        (some "Basic YWxpY2VAeC5jb206d3Jvbmc=") ∧
    basicAuthenticate (fun s => s ++ "#") [] (some "Basic YWxpY2VAeC5jb206d3Jvbmc=")
      = .respond unauthorizedResponse := by
  refine ⟨by decide, by decide, ?_, ?_⟩
  · exact (basicAuthFailuresIndistinguishable (fun s => s ++ "#") []
      [⟨"507f191e810c19729de860ea", "alice@x.com", "secret#"⟩]
      (some "Basic YWxpY2VAeC5jb206d3Jvbmc=") (some "Basic YWxpY2VAeC5jb206d3Jvbmc=")
      (by decide) (by decide)).1
  · exact (basicAuthFailuresIndistinguishable (fun s => s ++ "#") []
      [⟨"507f191e810c19729de860ea", "alice@x.com", "secret#"⟩]
      (some "Basic YWxpY2VAeC5jb206d3Jvbmc=") (some "Basic YWxpY2VAeC5jb206d3Jvbmc=")
      (by decide) (by decide)).2.1

/-- C5 counterexample: the bearer middleware is not total over all cache
states — when the cache holds a value under `auth_<token>` that is not a
well-formed ObjectId string, the `ObjectId` constructor inside
`getUserFromXToken` throws (there is no `try`), the rejection escapes the
middleware, and no 401 is sent. -/
theorem xTokenThrowsCounterexample :
    xTokenAuthenticate [] [("auth_tok", ⟨"zzz", 10⟩)] 0 (some "tok")
      = .threw objectIdErrorMsg ∧
    xTokenAuthenticate [] [("auth_tok", ⟨"zzz", 10⟩)] 0 (some "tok")
      ≠ .respond unauthorizedResponse := by
  refine ⟨by decide, ?_⟩
  intro h
  rw [show xTokenAuthenticate [] [("auth_tok", ⟨"zzz", 10⟩)] 0 (some "tok")
      = .threw objectIdErrorMsg from by decide] at h
  exact MwResult.noConfusion h

/-- C5 (amended): provided every truthy value the cache returns for the
request's `auth_<token>` key is a well-formed ObjectId string — which is
true of every value `getConnect` ever writes — the bearer middleware never
throws, and it answers exactly the 401 Unauthorized response when the
`X-Token` header is missing (falsy), when the token resolves to no cached
user id, and when the resolved id matches no stored user. -/
theorem xTokenTotalAmended (db : UsersDb) (st : RedisStore) (now : Nat)
    (xtoken : Option String)
    (hwf : ∀ v, redisGet st now ("auth_" ++ xtoken.getD "") = some v →
      v ≠ "" → (mongoObjectId v).isSome) :
    (∀ m, xTokenAuthenticate db st now xtoken ≠ .threw m) ∧
    (jsFalsyOpt xtoken = true →
      xTokenAuthenticate db st now xtoken = .respond unauthorizedResponse) ∧
    (redisGet st now ("auth_" ++ xtoken.getD "") = none →
      xTokenAuthenticate db st now xtoken = .respond unauthorizedResponse) ∧
    (∀ v oid, redisGet st now ("auth_" ++ xtoken.getD "") = some v →
      mongoObjectId v = some oid → dbFindOneById db oid = none →
      xTokenAuthenticate db st now xtoken = .respond unauthorizedResponse) := by
  have lookupNoThrow : ∀ m, getUserFromXToken db st now xtoken ≠ .oidError m := by
    intro m h
    by_cases hx : jsFalsyOpt xtoken = true
    · rw [show getUserFromXToken db st now xtoken = .ok none from by
        simp [getUserFromXToken, hx]] at h
      exact XTokenLookup.noConfusion h
    · cases hget : redisGet st now ("auth_" ++ xtoken.getD "") with
      | none =>
        rw [show getUserFromXToken db st now xtoken = .ok none from by
          simp [getUserFromXToken, hx, hget]] at h
        exact XTokenLookup.noConfusion h
      | some v =>
        by_cases hv : v.isEmpty = true
        · rw [show getUserFromXToken db st now xtoken = .ok none from by
            simp [getUserFromXToken, hx, hget, hv]] at h
          exact XTokenLookup.noConfusion h
        · have hvne : v ≠ "" := fun he => hv (by rw [he]; decide)
          have hsome := hwf v hget hvne
          cases hmo : mongoObjectId v with
          | none => rw [hmo] at hsome; exact Bool.noConfusion hsome
          | some oid =>
            rw [show getUserFromXToken db st now xtoken
                = .ok (dbFindOneById db oid) from by
              simp [getUserFromXToken, hx, hget, hv, hmo]] at h
            exact XTokenLookup.noConfusion h
  refine ⟨?_, ?_, ?_, ?_⟩
  · intro m h
    unfold xTokenAuthenticate at h
    cases hl : getUserFromXToken db st now xtoken with
    | oidError m' => exact lookupNoThrow m' hl
    | ok o =>
      rw [hl] at h
      cases o <;> exact MwResult.noConfusion h
  · intro hx
    simp [xTokenAuthenticate, getUserFromXToken, hx]
  · intro hget
    by_cases hx : jsFalsyOpt xtoken = true
    · simp [xTokenAuthenticate, getUserFromXToken, hx]
    · simp [xTokenAuthenticate, getUserFromXToken, hx, hget]
  · intro v oid hget hmo hfind
    by_cases hx : jsFalsyOpt xtoken = true
    · simp [xTokenAuthenticate, getUserFromXToken, hx]
    · by_cases hv : v.isEmpty = true
      · simp [xTokenAuthenticate, getUserFromXToken, hx, hget, hv]
      · simp [xTokenAuthenticate, getUserFromXToken, hx, hget, hv, hmo, hfind]

/-- C5 witness: the amended theorem applied to a request with no `X-Token`
header against the empty cache. -/
theorem xTokenTotalAmended_witness :
    xTokenAuthenticate [] [] 0 none = .respond unauthorizedResponse :=
  (xTokenTotalAmended [] [] 0 none
    (fun _ h _ => Option.noConfusion h)).2.1 rfl

/-- A falsiness helper shared by several claims: a non-falsy optional
string holds a nonempty string. -/
theorem getD_ne_of_not_falsy {o : Option String} (h : jsFalsyOpt o = false) :
    o.getD "" ≠ "" := by
  cases o with
  | none => simp [jsFalsyOpt] at h
  | some s =>
    intro h0
    have h0' : s = "" := h0
    rw [h0'] at h
    exact absurd h (by decide)

/-- C6 (code bug): the `DBClient` of `utils/db.js` has no `filesCollection`
method, so for every thumbnail job that passes both payload validations the
handler's call `dbClient.filesCollection()` throws a `TypeError` inside its
`try` block and the job fails — no files-collection query runs, no resize
happens and no thumbnail is ever written, where the spec intends three
resized copies at widths 500, 250, 100. -/
theorem thumbnailJobAlwaysFails (jobData : FileJobData)
    (hf : jsFalsyOpt jobData.fileId = false)
    (hu : jsFalsyOpt jobData.userId = false) :
    fileQueueProcess jobData = (.failed filesCollectionTypeError, []) := by
  simp [fileQueueProcess, hf, hu]

/-- C6 witness: a concrete well-formed thumbnail job fails with the
`TypeError` and performs no action. -/
theorem thumbnailJobAlwaysFails_witness :
    fileQueueProcess ⟨some "65a1b2c3d4e5f6a7b8c9d0e1", some "507f191e810c19729de860ea"⟩
      = (.failed filesCollectionTypeError, []) :=
  thumbnailJobAlwaysFails
    ⟨some "65a1b2c3d4e5f6a7b8c9d0e1", some "507f191e810c19729de860ea"⟩
    (by decide) (by decide)

/-- C7: a thumbnail job lacking `fileId` (and likewise one with `fileId`
but lacking `userId`) is reported as a validation failure with no
files-collection lookup and no filesystem write — the emitted action list
is empty. -/
theorem thumbnailValidationFirst (jobData : FileJobData) :
    (jsFalsyOpt jobData.fileId = true →
      fileQueueProcess jobData = (.failed "Missing fileId", [])) ∧
    (jsFalsyOpt jobData.fileId = false → jsFalsyOpt jobData.userId = true →
      fileQueueProcess jobData = (.failed "Missing userId", [])) := by
  constructor
  · intro h
    simp [fileQueueProcess, h]
  · intro hf hu
    simp [fileQueueProcess, hf, hu]

/-- C7 witness: the two validation failures at concrete payloads. -/
theorem thumbnailValidationFirst_witness :
    fileQueueProcess ⟨none, some "507f191e810c19729de860ea"⟩
      = (.failed "Missing fileId", []) ∧
    fileQueueProcess ⟨some "65a1b2c3d4e5f6a7b8c9d0e1", none⟩
      = (.failed "Missing userId", []) :=
  ⟨(thumbnailValidationFirst ⟨none, some "507f191e810c19729de860ea"⟩).1 rfl,
    (thumbnailValidationFirst ⟨some "65a1b2c3d4e5f6a7b8c9d0e1", none⟩).2
      (by decide) rfl⟩

/-- C8 counterexample: a userId that matches no stored user but is not a
well-formed ObjectId string (here `'zzz'` against the empty collection)
makes the `ObjectId` constructor throw inside the `try`, so the handler
reports the BSON error, not the claimed not-found failure. -/
theorem emailJobMalformedIdCounterexample :
    dbFindOneById [] "zzz" = none ∧
    userQueueProcess [] (some "sender@gmail.com") true .delivered ⟨some "zzz"⟩
      = ⟨.failed objectIdErrorMsg, none, false⟩ ∧
    userQueueProcess [] (some "sender@gmail.com") true .delivered ⟨some "zzz"⟩
      ≠ ⟨.failed "User not found", none, false⟩ := by
  refine ⟨rfl, by decide, by decide⟩

/-- C8 (amended): an email job whose userId is a well-formed ObjectId
string matching no stored user is reported as a `User not found` failure
with no mail built or dispatched; a malformed (but present) userId also
fails before any mail is built, with the ObjectId error; and when the user
exists and the welcome message builds successfully, the job reports
success the moment the send is dispatched — the send outcome parameter
does not appear in the result, so delivery is never awaited. -/
theorem emailJobAmended (db : UsersDb) (gmailSender : Option String)
    (validMime : Bool) (outcome : SendOutcome) (uid : String) :
    (∀ oid, mongoObjectId uid = some oid → dbFindOneById db oid = none →
      userQueueProcess db gmailSender validMime outcome ⟨some uid⟩
        = ⟨.failed "User not found", none, false⟩) ∧
    (uid ≠ "" → mongoObjectId uid = none →
      userQueueProcess db gmailSender validMime outcome ⟨some uid⟩
        = ⟨.failed objectIdErrorMsg, none, false⟩) ∧
    (∀ oid user mail, mongoObjectId uid = some oid →
      dbFindOneById db oid = some user →
      buildMessage gmailSender validMime user.email mailSubject mailContent
        = .ok mail →
      userQueueProcess db gmailSender validMime outcome ⟨some uid⟩
        = ⟨.done, some mail, true⟩) := by
  have huid : ∀ oid, mongoObjectId uid = some oid → uid ≠ "" := by
    intro oid hm h0
    rw [h0, show mongoObjectId "" = none from by decide] at hm
    exact Option.noConfusion hm
  refine ⟨?_, ?_, ?_⟩
  · intro oid hm hfind
    simp [userQueueProcess, jsFalsyOpt, isEmpty_false_of_ne (huid oid hm), hm, hfind]
  · intro hne hm
    simp [userQueueProcess, jsFalsyOpt, isEmpty_false_of_ne hne, hm]
  · intro oid user mail hm hfind hbuild
    simp [userQueueProcess, jsFalsyOpt, isEmpty_false_of_ne (huid oid hm), hm,
      hfind, hbuild]

/-- C8 witness: the amended theorem's not-found case at a concrete
well-formed id against the empty collection. -/
theorem emailJobAmended_witness :
    userQueueProcess [] (some "sender@gmail.com") true .delivered
      ⟨some "507f191e810c19729de860ea"⟩
      = ⟨.failed "User not found", none, false⟩ :=
  (emailJobAmended [] (some "sender@gmail.com") true .delivered
    "507f191e810c19729de860ea").1 "507f191e810c19729de860ea" (by decide) rfl

/-- C9: registration answers `400 Missing email` for a falsy email,
`400 Missing password` for a falsy password, `400 Already exist` for an
already-stored email; in each failure case the collection is unchanged and
no email job is enqueued; email uniqueness is preserved by every call; and
every user the call adds has a nonempty email and a password that is the
hash of a nonempty plaintext. -/
theorem postNewSpec (sha1 : String → String) (db : UsersDb)
    (body : Option NewUserBody) (newId : String) :
    (jsFalsyOpt (body.bind (·.email)) = true →
      postNew sha1 db body newId = ⟨⟨400, .errorJson "Missing email"⟩, db, []⟩) ∧
    (jsFalsyOpt (body.bind (·.email)) = false →
      jsFalsyOpt (body.bind (·.password)) = true →
      postNew sha1 db body newId = ⟨⟨400, .errorJson "Missing password"⟩, db, []⟩) ∧
    (∀ u, jsFalsyOpt (body.bind (·.email)) = false →
      jsFalsyOpt (body.bind (·.password)) = false →
      dbFindOneByEmail db ((body.bind (·.email)).getD "") = some u →
      postNew sha1 db body newId = ⟨⟨400, .errorJson "Already exist"⟩, db, []⟩) ∧
    ((db.map (·.email)).Nodup →
      ((postNew sha1 db body newId).db.map (·.email)).Nodup) ∧
    (∀ u, u ∈ (postNew sha1 db body newId).db →
      u ∈ db ∨ (u.email ≠ "" ∧ ∃ p, p ≠ "" ∧ u.password = sha1 p)) := by
  refine ⟨?_, ?_, ?_, ?_, ?_⟩
  · intro h
    simp [postNew, h]
  · intro he hp
    simp [postNew, he, hp]
  · intro u he hp hfind
    simp [postNew, he, hp, hfind]
  · intro hnd
    by_cases he : jsFalsyOpt (body.bind (·.email)) = true
    · simpa [postNew, he] using hnd
    · rw [Bool.not_eq_true] at he
      by_cases hp : jsFalsyOpt (body.bind (·.password)) = true
      · simpa [postNew, he, hp] using hnd
      · rw [Bool.not_eq_true] at hp
        cases hfind : dbFindOneByEmail db ((body.bind (·.email)).getD "") with
        | some u => simpa [postNew, he, hp, hfind] using hnd
        | none =>
          have hres : (postNew sha1 db body newId).db
              = db ++ [⟨newId, (body.bind (·.email)).getD "",
                  sha1 ((body.bind (·.password)).getD "")⟩] := by
            simp [postNew, he, hp, hfind]
          rw [hres, List.map_append]
          refine List.nodup_append.mpr ⟨hnd, List.nodup_singleton _, ?_⟩
          intro x hx hx2
          obtain ⟨u, hu, hue⟩ := List.mem_map.mp hx
          have hx2' : x = (body.bind (·.email)).getD "" := by simpa using hx2
          have := List.find?_eq_none.mp hfind u hu
          exact this (by simp [hue, hx2'])
  · intro u hu
    by_cases he : jsFalsyOpt (body.bind (·.email)) = true
    · exact Or.inl (by simpa [postNew, he] using hu)
    · rw [Bool.not_eq_true] at he
      by_cases hp : jsFalsyOpt (body.bind (·.password)) = true
      · exact Or.inl (by simpa [postNew, he, hp] using hu)
      · rw [Bool.not_eq_true] at hp
        cases hfind : dbFindOneByEmail db ((body.bind (·.email)).getD "") with
        | some u' => exact Or.inl (by simpa [postNew, he, hp, hfind] using hu)
        | none =>
          have hres : (postNew sha1 db body newId).db
              = db ++ [⟨newId, (body.bind (·.email)).getD "",
                  sha1 ((body.bind (·.password)).getD "")⟩] := by
            simp [postNew, he, hp, hfind]
          rw [hres] at hu
          rcases List.mem_append.mp hu with h | h
          · exact Or.inl h
          · have hu' : u = ⟨newId, (body.bind (·.email)).getD "",
                sha1 ((body.bind (·.password)).getD "")⟩ := by simpa using h
            subst hu'
            exact Or.inr ⟨getD_ne_of_not_falsy he,
              (body.bind (·.password)).getD "", getD_ne_of_not_falsy hp, rfl⟩

/-- C9 witness: the three rejections and the success shape at concrete
inputs, through the theorem. -/
theorem postNewSpec_witness :
    postNew (fun s => s ++ "#") [] none "id1"
      = ⟨⟨400, .errorJson "Missing email"⟩, [], []⟩ ∧
    postNew (fun s => s ++ "#") [] (some ⟨some "alice@x.com", none⟩) "id1"
      = ⟨⟨400, .errorJson "Missing password"⟩, [], []⟩ ∧
    postNew (fun s => s ++ "#")
      [⟨"507f191e810c19729de860ea", "alice@x.com", "secret#"⟩]
      (some ⟨some "alice@x.com", some "secret"⟩) "id1"
      = ⟨⟨400, .errorJson "Already exist"⟩,
          [⟨"507f191e810c19729de860ea", "alice@x.com", "secret#"⟩], []⟩ := by
  refine ⟨(postNewSpec (fun s => s ++ "#") [] none "id1").1 rfl,
    (postNewSpec (fun s => s ++ "#") [] (some ⟨some "alice@x.com", none⟩) "id1").2.1
      (by decide) rfl,
    (postNewSpec (fun s => s ++ "#")
      [⟨"507f191e810c19729de860ea", "alice@x.com", "secret#"⟩]
      (some ⟨some "alice@x.com", some "secret"⟩) "id1").2.2.1
      ⟨"507f191e810c19729de860ea", "alice@x.com", "secret#"⟩
      (by decide) (by decide) (by decide)⟩

/-- C10: the email job's reported trace is identical for every send
outcome — all authorization and Gmail API errors are absorbed inside
`sendMail`, which only logs — and, when the user exists, the job succeeds
exactly when `buildMessage` does not throw, i.e. when `GMAIL_SENDER` is
set and the MIME message is valid; a successful job always has the send
already dispatched. -/
theorem emailJobOutcomeIndependence (db : UsersDb) (gmailSender : Option String)
    (validMime : Bool) (o1 o2 : SendOutcome) (jobData : UserJobData) :
    userQueueProcess db gmailSender validMime o1 jobData
      = userQueueProcess db gmailSender validMime o2 jobData ∧
    (∀ uid oid user, jobData.userId = some uid → mongoObjectId uid = some oid →
      dbFindOneById db oid = some user →
      ((userQueueProcess db gmailSender validMime o1 jobData).result = .done ↔
        (jsFalsyOpt gmailSender = false ∧ validMime = true))) ∧
    (∀ uid oid user, jobData.userId = some uid → mongoObjectId uid = some oid →
      dbFindOneById db oid = some user →
      (userQueueProcess db gmailSender validMime o1 jobData).result = .done →
      (userQueueProcess db gmailSender validMime o1 jobData).dispatched = true) := by
  have huid : ∀ uid oid, mongoObjectId uid = some oid → uid ≠ "" := by
    intro uid oid hm h0
    rw [h0, show mongoObjectId "" = none from by decide] at hm
    exact Option.noConfusion hm
  have hmain : ∀ (o : SendOutcome) uid oid user, jobData.userId = some uid →
      mongoObjectId uid = some oid → dbFindOneById db oid = some user →
      userQueueProcess db gmailSender validMime o jobData
        = match buildMessage gmailSender validMime user.email mailSubject
            mailContent with
          | .error e => ⟨.failed e, none, false⟩
          | .ok mail => ⟨.done, some mail, true⟩ := by
    intro o uid oid user hj hm hfind
    cases jobData with
    | mk userId =>
      have hj' : userId = some uid := hj
      subst hj'
      simp [userQueueProcess, jsFalsyOpt, isEmpty_false_of_ne (huid uid oid hm),
        hm, hfind]
  refine ⟨rfl, ?_, ?_⟩
  · intro uid oid user hj hm hfind
    rw [hmain o1 uid oid user hj hm hfind]
    unfold buildMessage
    by_cases hs : jsFalsyOpt gmailSender = true
    · rw [if_pos hs]
      constructor
      · intro hdone
        exact absurd hdone (by simp)
      · rintro ⟨hs', _⟩
        rw [hs] at hs'
        exact Bool.noConfusion hs'
    · rw [if_neg hs]
      cases hv : validMime
      · simp
      · simp [Bool.not_eq_true] at hs
        simp [hs]
  · intro uid oid user hj hm hfind hdone
    rw [hmain o1 uid oid user hj hm hfind] at hdone ⊢
    cases hbuild : buildMessage gmailSender validMime user.email mailSubject
        mailContent with
    | error e =>
      rw [hbuild] at hdone
      exact absurd hdone (by simp)
    | ok mail =>
      rfl

/-- C10 witness: at a concrete existing user, the trace is identical under
a delivered send and a failed send, and success coincides with the message
building. -/
theorem emailJobOutcomeIndependence_witness :
    userQueueProcess [⟨"507f191e810c19729de860ea", "alice@x.com", "h"⟩]
      (some "sender@gmail.com") true .delivered ⟨some "507f191e810c19729de860ea"⟩
      = userQueueProcess [⟨"507f191e810c19729de860ea", "alice@x.com", "h"⟩]
        (some "sender@gmail.com") true (.apiError "quota") ⟨some "507f191e810c19729de860ea"⟩ ∧
    ((userQueueProcess [⟨"507f191e810c19729de860ea", "alice@x.com", "h"⟩]
        (some "sender@gmail.com") true .delivered
        ⟨some "507f191e810c19729de860ea"⟩).result = .done ↔
      (jsFalsyOpt (some "sender@gmail.com") = false ∧ true = true)) :=
  ⟨(emailJobOutcomeIndependence [⟨"507f191e810c19729de860ea", "alice@x.com", "h"⟩]
      (some "sender@gmail.com") true .delivered (.apiError "quota")
      ⟨some "507f191e810c19729de860ea"⟩).1,
    (emailJobOutcomeIndependence [⟨"507f191e810c19729de860ea", "alice@x.com", "h"⟩]
      (some "sender@gmail.com") true .delivered (.apiError "quota")
      ⟨some "507f191e810c19729de860ea"⟩).2.1 "507f191e810c19729de860ea"
      "507f191e810c19729de860ea" ⟨"507f191e810c19729de860ea", "alice@x.com", "h"⟩
      rfl (by decide) (by decide)⟩

end FilesManager
